import Mathlib

/-!
Verification of the Trip-Planner-API cache-aside data-access layer.

Shallow embedding of:
- `src/src/utils/helper.ts` (airport allow-list, cache-key builders),
- `src/unnamed/part_004` (`SearchTripsService.findTrips`: cache-aside read
  with bounded retry and linear backoff),
- `src/src/services/tripSearch.service.ts` (`TripSearchService.getTrips`,
  `sortTrips`),
- `src/src/services/tripManager.service.ts` (cache-invalidating section:
  `saveTrip`, `listTrips`, `deleteTrip`),
- `src/src/config/env.ts` (configuration loading).

Asynchronous I/O (Redis, Prisma, fetch) is modelled by passing the behaviour
of each collaborator explicitly: the Redis cache as a lookup function, the
per-attempt fetch outcome as a function of the attempt number, failures of
`redis.set` / `redis.keys` / `redis.del` / Prisma operations as explicit
error parameters.  JSON round-tripping of trip arrays through the cache
(`JSON.parse` after `JSON.stringify`) is the identity in JavaScript, so the
cache-read function returns the parsed trip list directly, while the
serialized string actually stored is modelled bit-exactly by
`serializeTrips` (the model of `JSON.stringify` on `Trip` arrays).
-/

namespace TripPlanner

/-- Trip record shape used by the services (`src/src/types` / spec §3):
`id`, `origin`, `destination`, `cost`, `duration`, `type`, `display_name`. -/
structure Trip where
  id : String
  origin : String
  destination : String
  cost : Nat
  duration : Nat
  type : String
  display_name : String
deriving Repr, DecidableEq

/-- `AppError` from `src/src/utils/errors.ts`: message, HTTP status code,
machine-readable error code. -/
structure AppError where
  message : String
  statusCode : Nat
  code : String
deriving Repr, DecidableEq

/-- The allow-list `SUPPORTED_AIRPORTS` from `src/src/utils/helper.ts`. -/
def SUPPORTED_AIRPORTS : List String :=
  ["ATL", "PEK", "LAX", "DXB", "HND", "ORD", "LHR", "PVG", "CDG", "DFW",
   "AMS", "FRA", "IST", "CAN", "JFK", "SIN", "DEN", "ICN", "BKK", "SFO",
   "LAS", "CLT", "MIA", "KUL", "SEA", "MUC", "EWR", "MAD", "HKG", "MCO",
   "PHX", "IAH", "SYD", "MEL", "GRU", "YYZ", "LGW", "BCN", "MAN", "BOM",
   "DEL", "ZRH", "SVO", "DME", "JNB", "ARN", "OSL", "CPH", "HEL", "VIE"]

/-- Model of JavaScript `String.prototype.toUpperCase` on a single character,
restricted to ASCII (all strings handled by the services are ASCII airport
codes; on ASCII the JS function maps `a`..`z` to `A`..`Z` and leaves every
other character unchanged). -/
def jsCharToUpper (c : Char) : Char :=
  if 97 ≤ c.toNat ∧ c.toNat ≤ 122 then Char.ofNat (c.toNat - 32) else c

/-- Model of JavaScript `String.prototype.toUpperCase` (ASCII fragment). -/
def jsToUpper (s : String) : String := ⟨s.data.map jsCharToUpper⟩

/-- `isSupportedAirport` from `src/src/utils/helper.ts`:
`SUPPORTED_AIRPORTS.includes(code.toUpperCase())`. -/
def isSupportedAirport (code : String) : Bool :=
  SUPPORTED_AIRPORTS.contains (jsToUpper code)

/-- `buildSearchCacheKey` from `src/src/utils/helper.ts`:
the template literal `trips:<origin>:<destination>`. -/
def buildSearchCacheKey (origin destination : String) : String :=
  "trips:" ++ origin ++ ":" ++ destination

/-- `CACHE_KEY_TRIPS` from `src/src/utils/helper.ts`. -/
def CACHE_KEY_TRIPS : String := "trips:saved"

/-- Lower-case hexadecimal digit, used by the `\u00XX` escapes that
`JSON.stringify` emits for control characters. -/
def hexDigit (n : Nat) : Char :=
  if n < 10 then Char.ofNat (48 + n) else Char.ofNat (87 + n)

/-- Escaping of one character inside a JSON string literal, exactly as
`JSON.stringify` performs it. -/
def jsonEscapeChar (c : Char) : String :=
  if c = '"' then "\\\""
  else if c = '\\' then "\\\\"
  else if c = '\n' then "\\n"
  else if c = '\r' then "\\r"
  else if c = '\t' then "\\t"
  else if c.toNat = 8 then "\\b"
  else if c.toNat = 12 then "\\f"
  else if c.toNat < 32 then
    "\\u00" ++ String.mk [hexDigit (c.toNat / 16), hexDigit (c.toNat % 16)]
  else String.singleton c

/-- `JSON.stringify` on a string value. -/
def jsonString (s : String) : String :=
  "\"" ++ String.join (s.data.map jsonEscapeChar) ++ "\""

/-- `JSON.stringify` on one `Trip` object (fields in declaration order, as
produced by the upstream decode / Prisma record). -/
def serializeTrip (t : Trip) : String :=
  "\x7b\"id\":" ++ jsonString t.id ++
  ",\"origin\":" ++ jsonString t.origin ++
  ",\"destination\":" ++ jsonString t.destination ++
  ",\"cost\":" ++ toString t.cost ++
  ",\"duration\":" ++ toString t.duration ++
  ",\"type\":" ++ jsonString t.type ++
  ",\"display_name\":" ++ jsonString t.display_name ++ "\x7d"

/-- `JSON.stringify` on a `Trip` array — the exact string handed to
`redis.set` by the services. -/
def serializeTrips (ts : List Trip) : String :=
  "[" ++ String.intercalate "," (ts.map serializeTrip) ++ "]"

/-- The `SortBy` type from `src/src/types/sort` (`fastest` or `cheapest`). -/
inductive SortBy where
  | fastest
  | cheapest
deriving Repr, DecidableEq

/-- The comparator passed to `Array.prototype.sort` inside
`TripSearchService.sortTrips` (`src/src/services/tripSearch.service.ts`):
primary metric difference, ties broken by the other metric. -/
def tripCompare (sortBy : SortBy) (a b : Trip) : Int :=
  let primary : Int :=
    if sortBy = SortBy.fastest then (a.duration : Int) - (b.duration : Int)
    else (a.cost : Int) - (b.cost : Int)
  if primary = 0 then
    if sortBy = SortBy.fastest then (a.cost : Int) - (b.cost : Int)
    else (a.duration : Int) - (b.duration : Int)
  else primary

/-- `TripSearchService.sortTrips`: `[...trips].sort(comparator)`.  The copy
`[...trips]` makes the JS sort non-mutating; in this pure embedding the input
list is of course also left untouched, and the returned list is the one
ordered by the comparator. -/
def sortTrips (trips : List Trip) (sortBy : SortBy) : List Trip :=
  trips.mergeSort (fun a b => tripCompare sortBy a b ≤ 0)

theorem tripCompare_fastest_le (a b : Trip) :
    tripCompare SortBy.fastest a b ≤ 0 ↔
      (a.duration < b.duration ∨
        (a.duration = b.duration ∧ a.cost ≤ b.cost)) := by
  simp only [tripCompare, if_pos rfl]
  split_ifs with h <;> omega

theorem tripCompare_cheapest_le (a b : Trip) :
    tripCompare SortBy.cheapest a b ≤ 0 ↔
      (a.cost < b.cost ∨ (a.cost = b.cost ∧ a.duration ≤ b.duration)) := by
  have hne : SortBy.cheapest ≠ SortBy.fastest := by decide
  simp only [tripCompare, if_neg hne]
  split_ifs with h <;> omega

theorem sortTrips_fastest_sorted (trips : List Trip) :
    List.Pairwise
      (fun a b : Trip => a.duration < b.duration ∨
        (a.duration = b.duration ∧ a.cost ≤ b.cost))
      (sortTrips trips SortBy.fastest) := by
  have h := @List.sorted_mergeSort Trip
    (fun a b : Trip => decide (tripCompare SortBy.fastest a b ≤ 0))
    (fun a b c hab hbc => by
      simp only [decide_eq_true_eq, tripCompare_fastest_le] at hab hbc ⊢
      omega)
    (fun a b => by
      simp only [Bool.or_eq_true, decide_eq_true_eq, tripCompare_fastest_le]
      omega)
    trips
  refine List.Pairwise.imp ?_ h
  intro a b hab
  simpa [tripCompare_fastest_le] using hab

theorem sortTrips_cheapest_sorted (trips : List Trip) :
    List.Pairwise
      (fun a b : Trip => a.cost < b.cost ∨
        (a.cost = b.cost ∧ a.duration ≤ b.duration))
      (sortTrips trips SortBy.cheapest) := by
  have h := @List.sorted_mergeSort Trip
    (fun a b : Trip => decide (tripCompare SortBy.cheapest a b ≤ 0))
    (fun a b c hab hbc => by
      simp only [decide_eq_true_eq, tripCompare_cheapest_le] at hab hbc ⊢
      omega)
    (fun a b => by
      simp only [Bool.or_eq_true, decide_eq_true_eq, tripCompare_cheapest_le]
      omega)
    trips
  refine List.Pairwise.imp ?_ h
  intro a b hab
  simpa [tripCompare_cheapest_le] using hab

/-- C9: for every list of trips, sorting with `fastest` yields a result
non-decreasing in duration with ties broken by non-decreasing cost; sorting
with `cheapest` yields a result non-decreasing in cost with ties broken by
non-decreasing duration; in both cases the result is a permutation of the
input.  (The JS source sorts a copy `[...trips]`, and this embedding is a
pure function, so the input sequence is not mutated by construction.) -/
theorem sortTrips_spec (trips : List Trip) :
    ((sortTrips trips SortBy.fastest).Perm trips ∧
      List.Pairwise (fun a b : Trip => a.duration ≤ b.duration)
        (sortTrips trips SortBy.fastest) ∧
      List.Pairwise
        (fun a b : Trip => a.duration = b.duration → a.cost ≤ b.cost)
        (sortTrips trips SortBy.fastest)) ∧
    ((sortTrips trips SortBy.cheapest).Perm trips ∧
      List.Pairwise (fun a b : Trip => a.cost ≤ b.cost)
        (sortTrips trips SortBy.cheapest) ∧
      List.Pairwise
        (fun a b : Trip => a.cost = b.cost → a.duration ≤ b.duration)
        (sortTrips trips SortBy.cheapest)) := by
  refine ⟨⟨List.mergeSort_perm trips _, ?_, ?_⟩,
    ⟨List.mergeSort_perm trips _, ?_, ?_⟩⟩
  · exact (sortTrips_fastest_sorted trips).imp (fun hab => by omega)
  · exact (sortTrips_fastest_sorted trips).imp (fun hab h => by omega)
  · exact (sortTrips_cheapest_sorted trips).imp (fun hab => by omega)
  · exact (sortTrips_cheapest_sorted trips).imp (fun hab h => by omega)

theorem colon_split {l1 r1 l2 r2 : List Char}
    (h1 : ':' ∉ l1) (h2 : ':' ∉ l2)
    (h : l1 ++ ':' :: r1 = l2 ++ ':' :: r2) : l1 = l2 ∧ r1 = r2 := by
  induction l1 generalizing l2 with
  | nil =>
    cases l2 with
    | nil => simpa using h
    | cons c t =>
      simp only [List.nil_append, List.cons_append, List.cons.injEq] at h
      refine absurd ?_ h2
      rw [← h.1]
      exact List.mem_cons_self ':' t
  | cons c t ih =>
    cases l2 with
    | nil =>
      simp only [List.cons_append, List.nil_append, List.cons.injEq] at h
      refine absurd ?_ h1
      rw [h.1]
      exact List.mem_cons_self ':' t
    | cons c2 t2 =>
      simp only [List.cons_append, List.cons.injEq] at h
      obtain ⟨hc, ht⟩ := h
      have := ih (fun hm => h1 (List.mem_cons_of_mem c hm))
        (fun hm => h2 (List.mem_cons_of_mem c2 hm)) ht
      exact ⟨by simp [hc, this.1], this.2⟩

/-- C5 (amended): `buildSearchCacheKey` is the literal, unnormalized
concatenation `trips:<origin>:<destination>` (case-sensitive-as-given), and
it is injective over pairs whose origin component contains no colon — in
particular over all pairs of airport codes.  (Over arbitrary strings it is
not injective; see the counterexample.) -/
theorem buildSearchCacheKey_spec (o1 d1 o2 d2 : String)
    (h1 : ':' ∉ o1.data) (h2 : ':' ∉ o2.data) :
    (buildSearchCacheKey o1 d1 = buildSearchCacheKey o2 d2 →
      o1 = o2 ∧ d1 = d2) ∧
    buildSearchCacheKey o1 d1 = "trips:" ++ o1 ++ ":" ++ d1 := by
  refine ⟨fun hkey => ?_, rfl⟩
  have hdata : ("trips:".data ++ (o1.data ++ ':' :: d1.data)) =
      ("trips:".data ++ (o2.data ++ ':' :: d2.data)) := by
    have := congrArg String.data hkey
    simpa [buildSearchCacheKey, String.data_append] using this
  have hsplit := colon_split h1 h2 (List.append_cancel_left hdata)
  constructor
  · cases o1; cases o2; exact congrArg String.mk (by simpa using hsplit.1)
  · cases d1; cases d2; exact congrArg String.mk (by simpa using hsplit.2)

/-- C5 witness: the amended injectivity applied at concrete airport codes. -/
theorem buildSearchCacheKey_spec_witness :
    (buildSearchCacheKey "ATL" "PEK" = buildSearchCacheKey "ATL" "PEK" →
      ("ATL" : String) = "ATL" ∧ ("PEK" : String) = "PEK") ∧
    buildSearchCacheKey "ATL" "PEK" = "trips:" ++ "ATL" ++ ":" ++ "PEK" :=
  buildSearchCacheKey_spec "ATL" "PEK" "ATL" "PEK" (by decide) (by decide)

/-- C5 counterexample: over arbitrary strings `buildSearchCacheKey` is not
injective — the distinct pairs `("A:B", "C")` and `("A", "B:C")` collide on
the key `trips:A:B:C`. -/
theorem buildSearchCacheKey_not_injective :
    (("A:B", "C") : String × String) ≠ ("A", "B:C") ∧
    buildSearchCacheKey "A:B" "C" = buildSearchCacheKey "A" "B:C" := by
  exact ⟨by decide, rfl⟩

/-- Outcome of the `fetch` call (plus `result.json()`) on one attempt of the
retry loop in `SearchTripsService.findTrips`:
- `ok data`: HTTP success (`result.ok`) with body decoding to `data`;
- `httpError status`: HTTP response with `result.ok` false and the given
  status code (the code then throws `FETCH_ERROR`);
- `netError msg`: `fetch` (or body decoding) rejected with an `Error`
  carrying message `msg` (timeout, connection refused, DNS failure, ...). -/
inductive FetchOutcome where
  | ok (data : List Trip)
  | httpError (status : Nat)
  | netError (msg : String)
deriving Repr, DecidableEq

/-- One pass through the `try` block of the retry loop in
`SearchTripsService.findTrips` (`src/unnamed/part_004`), up to but not
including the `catch`: fetch, check `result.ok`, decode, `redis.set`.
`setErrAt attempt` is the rejection message of the `redis.set` call on that
attempt (`none` = the cache write succeeds).  The result is the decoded trip
array, or the `message` of the caught exception — only the message survives
into the `catch` block, which is why a `String` suffices. -/
def attemptStep (fetchAt : Nat → FetchOutcome) (setErrAt : Nat → Option String)
    (attempt : Nat) : Except String (List Trip) :=
  match fetchAt attempt with
  | FetchOutcome.ok data =>
    match setErrAt attempt with
    | none => Except.ok data
    | some m => Except.error m
  | FetchOutcome.httpError status =>
    Except.error ("Failed to fetch trips (status: " ++ toString status ++ ")")
  | FetchOutcome.netError msg => Except.error msg

/-- The `AppError` thrown after the retry loop in
`SearchTripsService.findTrips` (unreachable when `maxRetries ≥ 1`). -/
def unexpectedError : AppError :=
  ⟨"Unexpected retry failure", 500, "UNEXPECTED_ERROR"⟩

/-- The `AppError` thrown on the final failed attempt of
`SearchTripsService.findTrips`: kind `FETCH_RETRY_FAILED`, status 502,
message carrying the number of attempts made and the last underlying
failure's message. -/
def retryFailedError (maxRetries : Nat) (msg : String) : AppError :=
  ⟨"Failed after " ++ toString maxRetries ++ " attempts: " ++ msg,
    502, "FETCH_RETRY_FAILED"⟩

/-- Observable result of a `findTrips` call: the returned value or thrown
error, the number of `fetch` invocations, the cumulative backoff wait in
milliseconds, and the successful cache writes as `(key, value, ttl)`
triples. -/
structure FindResult where
  result : Except AppError (List Trip)
  fetchCalls : Nat
  totalDelay : Nat
  cacheWrites : List (String × String × Nat)
deriving Repr

/-- The retry loop
`for (let attempt = 1; attempt <= maxRetries; attempt++) ...` of
`SearchTripsService.findTrips`.  `fuel` counts the iterations the loop bound
still allows (`maxRetries - attempt + 1` at entry); the `fuel = 0` case is
the loop exiting and reaching the trailing `UNEXPECTED_ERROR` throw.  Each
iteration performs one fetch; on success the decoded array is serialized and
stored (`redis.set key (JSON.stringify data) EX ttl`) and returned; on a
caught failure the loop rethrows `FETCH_RETRY_FAILED` when
`attempt === maxRetries` and otherwise sleeps `300 * attempt` ms and
retries. -/
def findTripsLoop (fetchAt : Nat → FetchOutcome)
    (setErrAt : Nat → Option String) (cacheKey : String)
    (ttl maxRetries : Nat) :
    Nat → Nat → Nat → Nat → FindResult
  | _attempt, calls, delay, 0 =>
    ⟨Except.error unexpectedError, calls, delay, []⟩
  | attempt, calls, delay, fuel + 1 =>
    match attemptStep fetchAt setErrAt attempt with
    | Except.ok data =>
      ⟨Except.ok data, calls + 1, delay,
        [(cacheKey, serializeTrips data, ttl)]⟩
    | Except.error msg =>
      if attempt = maxRetries then
        ⟨Except.error (retryFailedError maxRetries msg), calls + 1, delay, []⟩
      else
        findTripsLoop fetchAt setErrAt cacheKey ttl maxRetries
          (attempt + 1) (calls + 1) (delay + 300 * attempt) fuel

/-- `SearchTripsService.findTrips` (`src/unnamed/part_004`).
`cacheGet` models `JSON.parse ∘ redis.get`: the trip array stored under a
key, or `none` when the key is absent (every value ever stored is a
`JSON.stringify` of a trip array, and `JSON.parse` inverts it).  On a cache
hit the parsed value is returned with no fetch and no retry; on a miss the
retry loop runs with `attempt = 1` and fuel `maxRetries` (a `maxRetries` of
`0` models the JS loop guard being false from the start, as happens for a
non-positive or `NaN` configured value). -/
def findTrips (cacheGet : String → Option (List Trip))
    (fetchAt : Nat → FetchOutcome) (setErrAt : Nat → Option String)
    (origin destination : String) (ttl maxRetries : Nat) : FindResult :=
  let cacheKey := buildSearchCacheKey origin destination
  match cacheGet cacheKey with
  | some cached => ⟨Except.ok cached, 0, 0, []⟩
  | none => findTripsLoop fetchAt setErrAt cacheKey ttl maxRetries
      1 0 0 maxRetries

/-- `1 + 2 + ... + n`, the backoff multiplier accumulated by `n` waits. -/
def backoffSum : Nat → Nat
  | 0 => 0
  | n + 1 => backoffSum n + (n + 1)

/-- `spanSum s l = s + (s+1) + ... + (s+l-1)`: the attempt numbers charged
by `l` consecutive backoff waits starting at attempt `s`. -/
def spanSum : Nat → Nat → Nat
  | _, 0 => 0
  | s, l + 1 => s + spanSum (s + 1) l

theorem spanSum_snoc (l s : Nat) :
    spanSum s (l + 1) = spanSum s l + (s + l) := by
  induction l generalizing s with
  | zero => simp [spanSum]
  | succ n ih =>
    rw [spanSum, ih (s + 1), spanSum]
    omega

theorem spanSum_one (n : Nat) : spanSum 1 n = backoffSum n := by
  induction n with
  | zero => rfl
  | succ k ih => rw [spanSum_snoc, ih, backoffSum]; omega

theorem findTripsLoop_success (fetchAt : Nat → FetchOutcome)
    (setErrAt : Nat → Option String) (cacheKey : String)
    (ttl maxRetries : Nat) (data : List Trip) :
    ∀ (j attempt calls delay : Nat),
      attempt + j ≤ maxRetries →
      (∀ k, attempt ≤ k → k < attempt + j →
        ∃ m, attemptStep fetchAt setErrAt k = Except.error m) →
      attemptStep fetchAt setErrAt (attempt + j) = Except.ok data →
      findTripsLoop fetchAt setErrAt cacheKey ttl maxRetries attempt calls
          delay (maxRetries + 1 - attempt) =
        ⟨Except.ok data, calls + j + 1, delay + 300 * spanSum attempt j,
          [(cacheKey, serializeTrips data, ttl)]⟩ := by
  intro j
  induction j with
  | zero =>
    intro attempt calls delay hle _hfail hsucc
    obtain ⟨f, hf⟩ : ∃ f, maxRetries + 1 - attempt = f + 1 :=
      ⟨maxRetries - attempt, by omega⟩
    rw [hf, findTripsLoop]
    rw [Nat.add_zero] at hsucc
    rw [hsucc]
    simp [spanSum]
  | succ n ih =>
    intro attempt calls delay hle hfail hsucc
    obtain ⟨f, hf⟩ : ∃ f, maxRetries + 1 - attempt = f + 1 :=
      ⟨maxRetries - attempt, by omega⟩
    obtain ⟨m, hm⟩ := hfail attempt (Nat.le_refl attempt) (by omega)
    rw [hf, findTripsLoop, hm]
    dsimp only
    have hne : attempt ≠ maxRetries := by omega
    rw [if_neg hne]
    have hf2 : f = maxRetries + 1 - (attempt + 1) := by omega
    rw [hf2]
    have := ih (attempt + 1) (calls + 1) (delay + 300 * attempt) (by omega)
      (fun k hk1 hk2 => hfail k (by omega) (by omega))
      (by rw [show attempt + 1 + n = attempt + (n + 1) by omega]; exact hsucc)
    rw [this]
    simp only [FindResult.mk.injEq, spanSum, true_and, and_true]
    omega

theorem findTripsLoop_exhausted (fetchAt : Nat → FetchOutcome)
    (setErrAt : Nat → Option String) (cacheKey : String)
    (ttl maxRetries : Nat) (msgs : Nat → String) :
    ∀ (j attempt calls delay : Nat),
      attempt + j = maxRetries →
      (∀ k, attempt ≤ k → k ≤ maxRetries →
        attemptStep fetchAt setErrAt k = Except.error (msgs k)) →
      findTripsLoop fetchAt setErrAt cacheKey ttl maxRetries attempt calls
          delay (maxRetries + 1 - attempt) =
        ⟨Except.error (retryFailedError maxRetries (msgs maxRetries)),
          calls + j + 1, delay + 300 * spanSum attempt j, []⟩ := by
  intro j
  induction j with
  | zero =>
    intro attempt calls delay heq hfail
    obtain ⟨f, hf⟩ : ∃ f, maxRetries + 1 - attempt = f + 1 :=
      ⟨maxRetries - attempt, by omega⟩
    rw [hf, findTripsLoop, hfail attempt (Nat.le_refl attempt) (by omega)]
    dsimp only
    have ha : attempt = maxRetries := by omega
    rw [if_pos ha, ha]
    simp [spanSum]
  | succ n ih =>
    intro attempt calls delay heq hfail
    obtain ⟨f, hf⟩ : ∃ f, maxRetries + 1 - attempt = f + 1 :=
      ⟨maxRetries - attempt, by omega⟩
    rw [hf, findTripsLoop, hfail attempt (Nat.le_refl attempt) (by omega)]
    dsimp only
    rw [if_neg (show attempt ≠ maxRetries by omega)]
    have hf2 : f = maxRetries + 1 - (attempt + 1) := by omega
    rw [hf2]
    rw [ih (attempt + 1) (calls + 1) (delay + 300 * attempt) (by omega)
      (fun k hk1 hk2 => hfail k (by omega) hk2)]
    simp only [FindResult.mk.injEq, spanSum, true_and, and_true]
    omega

theorem findTripsLoop_no_unexpected (fetchAt : Nat → FetchOutcome)
    (setErrAt : Nat → Option String) (cacheKey : String)
    (ttl maxRetries : Nat) :
    ∀ (fuel attempt calls delay : Nat), 1 ≤ fuel →
      attempt + fuel = maxRetries + 1 →
      (∃ ts, (findTripsLoop fetchAt setErrAt cacheKey ttl maxRetries attempt
          calls delay fuel).result = Except.ok ts) ∨
      (∃ msg, (findTripsLoop fetchAt setErrAt cacheKey ttl maxRetries attempt
          calls delay fuel).result =
        Except.error (retryFailedError maxRetries msg)) := by
  intro fuel
  induction fuel with
  | zero => intro _ _ _ h; omega
  | succ f ih =>
    intro attempt calls delay _ hinv
    rw [findTripsLoop]
    cases hstep : attemptStep fetchAt setErrAt attempt with
    | ok data => exact Or.inl ⟨data, rfl⟩
    | error msg =>
      dsimp only
      by_cases hlast : attempt = maxRetries
      · rw [if_pos hlast]
        exact Or.inr ⟨msg, rfl⟩
      · rw [if_neg hlast]
        exact ih (attempt + 1) (calls + 1) (delay + 300 * attempt)
          (by omega) (by omega)

theorem findTripsLoop_ok_inversion (fetchAt : Nat → FetchOutcome)
    (setErrAt : Nat → Option String) (cacheKey : String)
    (ttl maxRetries : Nat) (data : List Trip) :
    ∀ (fuel attempt calls delay : Nat),
      (findTripsLoop fetchAt setErrAt cacheKey ttl maxRetries attempt calls
          delay fuel).result = Except.ok data →
      (findTripsLoop fetchAt setErrAt cacheKey ttl maxRetries attempt calls
          delay fuel).cacheWrites = [(cacheKey, serializeTrips data, ttl)] ∧
      ∃ j, j < fuel ∧
        (findTripsLoop fetchAt setErrAt cacheKey ttl maxRetries attempt calls
          delay fuel).fetchCalls = calls + j + 1 ∧
        attemptStep fetchAt setErrAt (attempt + j) = Except.ok data ∧
        ∀ k, attempt ≤ k → k < attempt + j →
          ∃ m, attemptStep fetchAt setErrAt k = Except.error m := by
  intro fuel
  induction fuel with
  | zero =>
    intro attempt calls delay h
    exact absurd h (by simp [findTripsLoop, unexpectedError])
  | succ f ih =>
    intro attempt calls delay h
    rw [findTripsLoop] at h ⊢
    cases hstep : attemptStep fetchAt setErrAt attempt with
    | ok d =>
      rw [hstep] at h
      dsimp only at h ⊢
      simp only [Except.ok.injEq] at h
      subst h
      refine ⟨rfl, 0, by omega, by omega, by simpa using hstep,
        fun k hk1 hk2 => absurd hk2 (by omega)⟩
    | error msg =>
      rw [hstep] at h
      dsimp only at h ⊢
      by_cases hlast : attempt = maxRetries
      · rw [if_pos hlast] at h
        simp at h
      · rw [if_neg hlast] at h ⊢
        obtain ⟨hw, j, hj, hcalls, hsucc, hfail⟩ :=
          ih (attempt + 1) (calls + 1) (delay + 300 * attempt) h
        refine ⟨hw, j + 1, by omega, by omega, ?_, ?_⟩
        · rw [show attempt + (j + 1) = attempt + 1 + j by omega]
          exact hsucc
        · intro k hk1 hk2
          rcases Nat.eq_or_lt_of_le hk1 with heq | hlt
          · exact ⟨msg, heq ▸ hstep⟩
          · exact hfail k (by omega) (by omega)

theorem findTrips_hit (cacheGet : String → Option (List Trip))
    (fetchAt : Nat → FetchOutcome) (setErrAt : Nat → Option String)
    (origin destination : String) (ttl maxRetries : Nat) (ts : List Trip)
    (hhit : cacheGet (buildSearchCacheKey origin destination) = some ts) :
    findTrips cacheGet fetchAt setErrAt origin destination ttl maxRetries =
      ⟨Except.ok ts, 0, 0, []⟩ := by
  simp only [findTrips, hhit]

theorem findTrips_miss (cacheGet : String → Option (List Trip))
    (fetchAt : Nat → FetchOutcome) (setErrAt : Nat → Option String)
    (origin destination : String) (ttl maxRetries : Nat)
    (hmiss : cacheGet (buildSearchCacheKey origin destination) = none) :
    findTrips cacheGet fetchAt setErrAt origin destination ttl maxRetries =
      findTripsLoop fetchAt setErrAt (buildSearchCacheKey origin destination)
        ttl maxRetries 1 0 0 maxRetries := by
  simp only [findTrips, hmiss]

/-- C3: on a cache miss with `1 ≤ N ≤ maxRetries`, if every attempt before
`N` fails and attempt `N` succeeds, `findTrips` returns the fetched data,
the operation was invoked exactly `N` times, and the cumulative backoff
wait is `300 * (1 + 2 + ... + (N-1))`; if every attempt fails, `findTrips`
fails after exactly `maxRetries` invocations with the `FETCH_RETRY_FAILED`
error whose message carries the number of attempts made and the last
underlying failure's message (`retryFailedError`). -/
theorem findTrips_retry_spec (cacheGet : String → Option (List Trip))
    (fetchAt : Nat → FetchOutcome) (setErrAt : Nat → Option String)
    (origin destination : String) (ttl maxRetries N : Nat)
    (data : List Trip) (msgs : Nat → String)
    (hmiss : cacheGet (buildSearchCacheKey origin destination) = none)
    (hN1 : 1 ≤ N) (hN2 : N ≤ maxRetries) :
    ((∀ k, 1 ≤ k → k < N →
        attemptStep fetchAt setErrAt k = Except.error (msgs k)) →
      attemptStep fetchAt setErrAt N = Except.ok data →
      findTrips cacheGet fetchAt setErrAt origin destination ttl maxRetries =
        ⟨Except.ok data, N, 300 * backoffSum (N - 1),
          [(buildSearchCacheKey origin destination, serializeTrips data,
            ttl)]⟩) ∧
    ((∀ k, 1 ≤ k → k ≤ maxRetries →
        attemptStep fetchAt setErrAt k = Except.error (msgs k)) →
      findTrips cacheGet fetchAt setErrAt origin destination ttl maxRetries =
        ⟨Except.error (retryFailedError maxRetries (msgs maxRetries)),
          maxRetries, 300 * backoffSum (maxRetries - 1), []⟩) := by
  constructor
  · intro hfail hsucc
    have hmain := findTripsLoop_success fetchAt setErrAt
      (buildSearchCacheKey origin destination) ttl maxRetries data
      (N - 1) 1 0 0 (by omega)
      (fun k hk1 hk2 => ⟨msgs k, hfail k hk1 (by omega)⟩)
      (by rw [show 1 + (N - 1) = N by omega]; exact hsucc)
    rw [show maxRetries + 1 - 1 = maxRetries by omega] at hmain
    rw [findTrips_miss cacheGet fetchAt setErrAt origin destination ttl
      maxRetries hmiss, hmain]
    simp only [FindResult.mk.injEq, true_and, and_true, spanSum_one]
    omega
  · intro hfail
    have hmain := findTripsLoop_exhausted fetchAt setErrAt
      (buildSearchCacheKey origin destination) ttl maxRetries msgs
      (maxRetries - 1) 1 0 0 (by omega) (fun k hk1 hk2 => hfail k hk1 hk2)
    rw [show maxRetries + 1 - 1 = maxRetries by omega] at hmain
    rw [findTrips_miss cacheGet fetchAt setErrAt origin destination ttl
      maxRetries hmiss, hmain]
    simp only [FindResult.mk.injEq, true_and, and_true, spanSum_one]
    omega

/-- C3 witness: with `maxRetries = 3`, a network failure on attempt 1 and a
success on attempt 2, `findTrips` returns the data after exactly 2
invocations with a cumulative wait of `300 * 1`. -/
theorem findTrips_retry_spec_witness :
    findTrips (fun _ => none)
      (fun k => if k = 2 then FetchOutcome.ok [] else
        FetchOutcome.netError "boom")
      (fun _ => none) "ATL" "PEK" 300 3 =
      ⟨Except.ok [], 2, 300 * backoffSum 1,
        [(buildSearchCacheKey "ATL" "PEK", serializeTrips [], 300)]⟩ :=
  (findTrips_retry_spec (fun _ => none)
      (fun k => if k = 2 then FetchOutcome.ok [] else
        FetchOutcome.netError "boom")
      (fun _ => none) "ATL" "PEK" 300 3 2 [] (fun _ => "boom")
      rfl (by omega) (by omega)).1
    (fun k hk1 hk2 => by
      have hk : k = 1 := by omega
      subst hk
      rfl)
    rfl

/-- C10: for `maxRetries ≥ 1` and any behaviour of the cache and the
upstream fetch, `findTrips` either returns a trip array or fails with the
in-loop `FETCH_RETRY_FAILED` (502) error; the post-loop `UNEXPECTED_ERROR`
(500) throw is unreachable.  (Termination is structural in this embedding:
the loop runs at most `maxRetries` iterations.) -/
theorem findTrips_no_unexpected (cacheGet : String → Option (List Trip))
    (fetchAt : Nat → FetchOutcome) (setErrAt : Nat → Option String)
    (origin destination : String) (ttl maxRetries : Nat)
    (hmax : 1 ≤ maxRetries) :
    (∃ ts, (findTrips cacheGet fetchAt setErrAt origin destination ttl
        maxRetries).result = Except.ok ts) ∨
    (∃ e, (findTrips cacheGet fetchAt setErrAt origin destination ttl
        maxRetries).result = Except.error e ∧
      e.code = "FETCH_RETRY_FAILED" ∧ e.statusCode = 502) := by
  cases hget : cacheGet (buildSearchCacheKey origin destination) with
  | some ts =>
    left
    exact ⟨ts, by rw [findTrips_hit cacheGet fetchAt setErrAt origin
      destination ttl maxRetries ts hget]⟩
  | none =>
    rw [findTrips_miss cacheGet fetchAt setErrAt origin destination ttl
      maxRetries hget]
    rcases findTripsLoop_no_unexpected fetchAt setErrAt
        (buildSearchCacheKey origin destination) ttl maxRetries
        maxRetries 1 0 0 (by omega) (by omega) with ⟨ts, h⟩ | ⟨msg, h⟩
    · exact Or.inl ⟨ts, h⟩
    · exact Or.inr ⟨retryFailedError maxRetries msg, h, rfl, rfl⟩

/-- C10 witness: the dichotomy applied at a concrete always-failing fetch
with `maxRetries = 1`. -/
theorem findTrips_no_unexpected_witness :
    (∃ ts, (findTrips (fun _ => none)
        (fun _ => FetchOutcome.netError "down") (fun _ => none)
        "ATL" "PEK" 60 1).result = Except.ok ts) ∨
    (∃ e, (findTrips (fun _ => none)
        (fun _ => FetchOutcome.netError "down") (fun _ => none)
        "ATL" "PEK" 60 1).result = Except.error e ∧
      e.code = "FETCH_RETRY_FAILED" ∧ e.statusCode = 502) :=
  findTrips_no_unexpected (fun _ => none)
    (fun _ => FetchOutcome.netError "down") (fun _ => none)
    "ATL" "PEK" 60 1 (by omega)

/-- C4: on a cache hit `findTrips` returns the deserialized cached value
with zero fetch calls, zero backoff and no cache writes (the retry path is
never entered); on a cache miss that returns successfully, the run ends on
its unique successful fetch (all earlier attempts failed) and the cache is
populated under `trips:<origin>:<destination>` with the exact JSON
serialization of the returned array and the configured TTL; the empty
array serializes (and is therefore cached) as `"[]"`. -/
theorem findTrips_cache_aside_spec (cacheGet : String → Option (List Trip))
    (fetchAt : Nat → FetchOutcome) (setErrAt : Nat → Option String)
    (origin destination : String) (ttl maxRetries : Nat) :
    (∀ ts, cacheGet (buildSearchCacheKey origin destination) = some ts →
      findTrips cacheGet fetchAt setErrAt origin destination ttl maxRetries =
        ⟨Except.ok ts, 0, 0, []⟩) ∧
    (∀ data, cacheGet (buildSearchCacheKey origin destination) = none →
      (findTrips cacheGet fetchAt setErrAt origin destination ttl
        maxRetries).result = Except.ok data →
      (findTrips cacheGet fetchAt setErrAt origin destination ttl
        maxRetries).cacheWrites =
        [(buildSearchCacheKey origin destination, serializeTrips data,
          ttl)] ∧
      attemptStep fetchAt setErrAt
        ((findTrips cacheGet fetchAt setErrAt origin destination ttl
          maxRetries).fetchCalls) = Except.ok data ∧
      ∀ k, 1 ≤ k →
        k < (findTrips cacheGet fetchAt setErrAt origin destination ttl
          maxRetries).fetchCalls →
        ∃ m, attemptStep fetchAt setErrAt k = Except.error m) ∧
    serializeTrips ([] : List Trip) = "[]" := by
  refine ⟨?_, ?_, rfl⟩
  · intro ts hhit
    exact findTrips_hit cacheGet fetchAt setErrAt origin destination ttl
      maxRetries ts hhit
  · intro data hmiss hok
    rw [findTrips_miss cacheGet fetchAt setErrAt origin destination ttl
      maxRetries hmiss] at hok ⊢
    obtain ⟨hw, j, hj, hcalls, hsucc, hfail⟩ :=
      findTripsLoop_ok_inversion fetchAt setErrAt
        (buildSearchCacheKey origin destination) ttl maxRetries data
        maxRetries 1 0 0 hok
    refine ⟨hw, ?_, ?_⟩
    · rw [hcalls, show 0 + j + 1 = 1 + j by omega]
      exact hsucc
    · intro k hk1 hk2
      rw [hcalls] at hk2
      exact hfail k hk1 (by omega)

/-- C4 witness: a hit returns the cached array with zero fetches; a miss
with an immediately-successful fetch stores `"[]"` under
`trips:ATL:PEK` with the configured TTL. -/
theorem findTrips_cache_aside_spec_witness :
    findTrips (fun _ => some []) (fun _ => FetchOutcome.netError "down")
      (fun _ => none) "ATL" "PEK" 60 3 = ⟨Except.ok [], 0, 0, []⟩ ∧
    (findTrips (fun _ => none) (fun _ => FetchOutcome.ok [])
      (fun _ => none) "ATL" "PEK" 60 3).cacheWrites =
      [(buildSearchCacheKey "ATL" "PEK", serializeTrips [], 60)] ∧
    serializeTrips ([] : List Trip) = "[]" :=
  ⟨(findTrips_cache_aside_spec (fun _ => some [])
      (fun _ => FetchOutcome.netError "down") (fun _ => none)
      "ATL" "PEK" 60 3).1 [] rfl,
    ((findTrips_cache_aside_spec (fun _ => none)
      (fun _ => FetchOutcome.ok []) (fun _ => none)
      "ATL" "PEK" 60 3).2.1 [] rfl rfl).1,
    (findTrips_cache_aside_spec (fun _ => none)
      (fun _ => FetchOutcome.ok []) (fun _ => none)
      "ATL" "PEK" 60 3).2.2⟩

/-- A sample trip used by concrete counterexamples. -/
def sampleTrip : Trip :=
  ⟨"1", "ATL", "PEK", 100, 120, "flight", "ATL to PEK"⟩

/-- C1 counterexample: a cache-miss call with `maxRetries = 1` whose fetch
succeeds but whose subsequent `redis.set` rejects does NOT return the
fetched trip array — the `redis.set` failure is caught by the retry loop's
`catch`, and since it is the final attempt, `findTrips` throws
`FETCH_RETRY_FAILED` (502) carrying the store failure's message, discarding
the fetched result. -/
theorem findTrips_set_failure_counterexample :
    (findTrips (fun _ => none) (fun _ => FetchOutcome.ok [sampleTrip])
      (fun _ => some "redis down") "ATL" "PEK" 300 1).result =
      Except.error
        ⟨"Failed after 1 attempts: redis down", 502, "FETCH_RETRY_FAILED"⟩ ∧
    (findTrips (fun _ => none) (fun _ => FetchOutcome.ok [sampleTrip])
      (fun _ => some "redis down") "ATL" "PEK" 300 1).result ≠
      Except.ok [sampleTrip] := by
  constructor
  · rfl
  · intro h
    exact Except.noConfusion h

/-- C1 (amended): the cache write after a successful fetch is NOT
best-effort: a `redis.set` rejection is caught by the retry loop's error
handler like a fetch failure — retried on non-final attempts, and on the
final attempt `findTrips` throws `FETCH_RETRY_FAILED` carrying the store
error's message instead of returning the fetched array.  The fetched array
is returned only on an attempt whose fetch and cache store both succeed. -/
theorem findTrips_set_failure_escalates (cacheGet : String → Option (List Trip))
    (fetchAt : Nat → FetchOutcome) (setErrAt : Nat → Option String)
    (origin destination : String) (ttl maxRetries : Nat)
    (data : List Trip) (m : String) (msgs : Nat → String)
    (hmiss : cacheGet (buildSearchCacheKey origin destination) = none)
    (hmax : 1 ≤ maxRetries)
    (hfetch : fetchAt maxRetries = FetchOutcome.ok data)
    (hset : setErrAt maxRetries = some m)
    (hfail : ∀ k, 1 ≤ k → k < maxRetries →
      attemptStep fetchAt setErrAt k = Except.error (msgs k)) :
    findTrips cacheGet fetchAt setErrAt origin destination ttl maxRetries =
      ⟨Except.error (retryFailedError maxRetries m), maxRetries,
        300 * backoffSum (maxRetries - 1), []⟩ := by
  have hlast : attemptStep fetchAt setErrAt maxRetries = Except.error m := by
    simp [attemptStep, hfetch, hset]
  have hall : ∀ k, 1 ≤ k → k ≤ maxRetries →
      attemptStep fetchAt setErrAt k =
        Except.error (if k = maxRetries then m else msgs k) := by
    intro k hk1 hk2
    by_cases hk : k = maxRetries
    · rw [if_pos hk, hk]
      exact hlast
    · rw [if_neg hk]
      exact hfail k hk1 (by omega)
  have := (findTrips_retry_spec cacheGet fetchAt setErrAt origin destination
    ttl maxRetries maxRetries data
    (fun k => if k = maxRetries then m else msgs k)
    hmiss hmax (Nat.le_refl maxRetries)).2 hall
  simpa using this

/-- C1 amended-theorem witness: `maxRetries = 2`, a network failure on
attempt 1, a successful fetch but failing `redis.set` on attempt 2. -/
theorem findTrips_set_failure_escalates_witness :
    findTrips (fun _ => none)
      (fun k => if k = 2 then FetchOutcome.ok [sampleTrip] else
        FetchOutcome.netError "neterr")
      (fun _ => some "cache down") "ATL" "PEK" 300 2 =
      ⟨Except.error (retryFailedError 2 "cache down"), 2,
        300 * backoffSum 1, []⟩ :=
  findTrips_set_failure_escalates (fun _ => none)
    (fun k => if k = 2 then FetchOutcome.ok [sampleTrip] else
      FetchOutcome.netError "neterr")
    (fun _ => some "cache down") "ATL" "PEK" 300 2 [sampleTrip]
    "cache down" (fun _ => "neterr") rfl (by omega) rfl rfl
    (fun k hk1 hk2 => by
      have hk : k = 1 := by omega
      subst hk
      rfl)

/-- Observable outcome of a `TripManagerService.saveTrip` call (second,
cache-invalidating section of `src/src/services/tripManager.service.ts`):
the returned trip or thrown error, the Prisma table rows afterwards,
whether `prisma.trip.create` was invoked, the argument lists of `redis.del`
calls, and the `console.warn` messages emitted for swallowed `redis.del`
failures. -/
structure SaveOutput where
  result : Except AppError Trip
  db : List Trip
  createCalled : Bool
  delCalls : List (List String)
  warnings : List String
deriving Repr

/-- `TripManagerService.saveTrip`, with its collaborators made explicit:
- `searchOutcome`: result of the `searchTripsService.findTrips` call,
- `db`: rows of the Prisma trip table,
- `createError`: rejection message of `prisma.trip.create`
  (`none` = success; on success the row is appended),
- `keysResult`: `redis.keys("trips:saved*")` — the key list or a rejection
  message (a rejection is caught by the surrounding `catch` and rethrown as
  `DB_ERROR`),
- `delError`: rejection of `redis.del(...keys)` (`none` = success); the
  code attaches `.catch(console.warn)`, so this failure only warns. -/
def saveTrip (searchOutcome : Except AppError (List Trip)) (db : List Trip)
    (createError : Option String) (keysResult : Except String (List String))
    (delError : Option String) (id : String) : SaveOutput :=
  match searchOutcome with
  | Except.error e => ⟨Except.error e, db, false, [], []⟩
  | Except.ok trips =>
    match trips.find? (fun t => t.id == id) with
    | none =>
      ⟨Except.error ⟨"Trip not found", 404, "TRIP_NOT_FOUND"⟩,
        db, false, [], []⟩
    | some trip =>
      match db.find? (fun t => t.id == trip.id) with
      | some _ =>
        ⟨Except.error
            ⟨"Trip already saved in database", 409, "TRIP_ALREADY_SAVED"⟩,
          db, false, [], []⟩
      | none =>
        match createError with
        | some m => ⟨Except.error ⟨m, 500, "DB_ERROR"⟩, db, true, [], []⟩
        | none =>
          match keysResult with
          | Except.error m =>
            ⟨Except.error ⟨m, 500, "DB_ERROR"⟩, db ++ [trip], true, [], []⟩
          | Except.ok keys =>
            if keys.isEmpty then
              ⟨Except.ok trip, db ++ [trip], true, [], []⟩
            else
              match delError with
              | some m =>
                ⟨Except.ok trip, db ++ [trip], true, [keys],
                  ["Failed to clear Redis cache: " ++ m]⟩
              | none => ⟨Except.ok trip, db ++ [trip], true, [keys], []⟩

/-- Observable outcome of a `TripManagerService.deleteTrip` call. -/
structure DeleteOutput where
  result : Except AppError Unit
  db : List Trip
  deleteCalled : Bool
  delCalls : List (List String)
  warnings : List String
deriving Repr

/-- `TripManagerService.deleteTrip` (cache-invalidating section):
`prisma.trip.findUnique`, `TRIP_NOT_FOUND` when absent; then inside the
`try` block `prisma.trip.delete` (`deleteError` = its rejection message),
`redis.keys("trips:saved*")` (`keysResult`), and — only when the key list
is non-empty — `redis.del(...keys)` with `.catch(console.warn)`
(`delError`). -/
def deleteTrip (db : List Trip) (deleteError : Option String)
    (keysResult : Except String (List String)) (delError : Option String)
    (id : String) : DeleteOutput :=
  match db.find? (fun t => t.id == id) with
  | none =>
    ⟨Except.error ⟨"Trip not found", 404, "TRIP_NOT_FOUND"⟩,
      db, false, [], []⟩
  | some _ =>
    match deleteError with
    | some m => ⟨Except.error ⟨m, 500, "DB_ERROR"⟩, db, true, [], []⟩
    | none =>
      match keysResult with
      | Except.error m =>
        ⟨Except.error ⟨m, 500, "DB_ERROR"⟩,
          db.filter (fun t => !(t.id == id)), true, [], []⟩
      | Except.ok keys =>
        if keys.isEmpty then
          ⟨Except.ok (), db.filter (fun t => !(t.id == id)), true, [], []⟩
        else
          match delError with
          | some m =>
            ⟨Except.ok (), db.filter (fun t => !(t.id == id)), true, [keys],
              ["Failed to clear Redis cache: " ++ m]⟩
          | none =>
            ⟨Except.ok (), db.filter (fun t => !(t.id == id)), true,
              [keys], []⟩

/-- C2 counterexample: when the durable write has succeeded but the key
enumeration `redis.keys("trips:saved*")` rejects, the failure is NOT
swallowed — `saveTrip` throws `DB_ERROR` (500) even though the row is
already committed, and `deleteTrip` likewise rejects. -/
theorem invalidation_keys_failure_counterexample :
    (saveTrip (Except.ok [sampleTrip]) [] none (Except.error "redis down")
      none "1").result = Except.error ⟨"redis down", 500, "DB_ERROR"⟩ ∧
    (saveTrip (Except.ok [sampleTrip]) [] none (Except.error "redis down")
      none "1").db = [sampleTrip] ∧
    (saveTrip (Except.ok [sampleTrip]) [] none (Except.error "redis down")
      none "1").result ≠ Except.ok sampleTrip ∧
    (deleteTrip [sampleTrip] none (Except.error "redis down") none
      "1").result = Except.error ⟨"redis down", 500, "DB_ERROR"⟩ :=
  ⟨rfl, rfl, fun h => Except.noConfusion h, rfl⟩

/-- C2 (amended): after a successful durable create (save) or durable
delete, a failure of the bulk key deletion `redis.del` is swallowed — the
call still succeeds and only a warning is recorded; but a failure of the
key enumeration `redis.keys` is caught by the surrounding `DB_ERROR`
handler and escalates to the caller as `DB_ERROR` (500), even though the
durable write has already committed. -/
theorem invalidation_failure_policy (db trips : List Trip) (id : String)
    (keys : List String) (m : String) :
    (∀ trip, trips.find? (fun t => t.id == id) = some trip →
      db.find? (fun t => t.id == trip.id) = none →
      keys ≠ [] →
      saveTrip (Except.ok trips) db none (Except.ok keys) (some m) id =
        ⟨Except.ok trip, db ++ [trip], true, [keys],
          ["Failed to clear Redis cache: " ++ m]⟩) ∧
    (∀ trip, db.find? (fun t => t.id == id) = some trip →
      keys ≠ [] →
      deleteTrip db none (Except.ok keys) (some m) id =
        ⟨Except.ok (), db.filter (fun t => !(t.id == id)), true, [keys],
          ["Failed to clear Redis cache: " ++ m]⟩) ∧
    (∀ trip, trips.find? (fun t => t.id == id) = some trip →
      db.find? (fun t => t.id == trip.id) = none →
      saveTrip (Except.ok trips) db none (Except.error m) none id =
        ⟨Except.error ⟨m, 500, "DB_ERROR"⟩, db ++ [trip], true, [], []⟩) ∧
    (∀ trip, db.find? (fun t => t.id == id) = some trip →
      deleteTrip db none (Except.error m) none id =
        ⟨Except.error ⟨m, 500, "DB_ERROR"⟩,
          db.filter (fun t => !(t.id == id)), true, [], []⟩) := by
  refine ⟨?_, ?_, ?_, ?_⟩
  · intro trip hfind hnodup hkeys
    simp [saveTrip, hfind, hnodup, List.isEmpty_iff, hkeys]
  · intro trip hfind hkeys
    simp [deleteTrip, hfind, List.isEmpty_iff, hkeys]
  · intro trip hfind hnodup
    simp [saveTrip, hfind, hnodup]
  · intro trip hfind
    simp [deleteTrip, hfind]

/-- C2 amended-theorem witness: concrete save and delete runs in which the
`redis.del` failure is swallowed and the `redis.keys` failure escalates. -/
theorem invalidation_failure_policy_witness :
    saveTrip (Except.ok [sampleTrip]) [] none
        (Except.ok ["trips:saved:20:0"]) (some "boom") "1" =
      ⟨Except.ok sampleTrip, [sampleTrip], true, [["trips:saved:20:0"]],
        ["Failed to clear Redis cache: boom"]⟩ ∧
    deleteTrip [sampleTrip] none (Except.ok ["trips:saved:20:0"])
        (some "boom") "1" =
      ⟨Except.ok (), [], true, [["trips:saved:20:0"]],
        ["Failed to clear Redis cache: boom"]⟩ :=
  ⟨((invalidation_failure_policy [] [sampleTrip] "1" ["trips:saved:20:0"]
      "boom").1 sampleTrip rfl rfl (by simp)),
    by
      have h := (invalidation_failure_policy [sampleTrip] [] "1"
        ["trips:saved:20:0"] "boom").2.1 sampleTrip rfl (by simp)
      simpa using h⟩

/-- C8: existence and conflict checks fail fast before any mutating side
effect, for every behaviour of the downstream collaborators: a save whose
fresh lookup does not contain `id` fails with `TRIP_NOT_FOUND` (404)
without calling `prisma.trip.create` and leaves the table unchanged; a save
whose `id` is already persisted fails with `TRIP_ALREADY_SAVED` (409)
likewise; a delete of an absent `id` fails with `TRIP_NOT_FOUND` (404)
without calling `prisma.trip.delete` and leaves the table unchanged. -/
theorem manager_fail_fast (trips db : List Trip) (id : String)
    (createError deleteError delError : Option String)
    (keysResult : Except String (List String)) :
    (trips.find? (fun t => t.id == id) = none →
      saveTrip (Except.ok trips) db createError keysResult delError id =
        ⟨Except.error ⟨"Trip not found", 404, "TRIP_NOT_FOUND"⟩,
          db, false, [], []⟩) ∧
    (∀ trip t0, trips.find? (fun t => t.id == id) = some trip →
      db.find? (fun t => t.id == trip.id) = some t0 →
      saveTrip (Except.ok trips) db createError keysResult delError id =
        ⟨Except.error
            ⟨"Trip already saved in database", 409, "TRIP_ALREADY_SAVED"⟩,
          db, false, [], []⟩) ∧
    (db.find? (fun t => t.id == id) = none →
      deleteTrip db deleteError keysResult delError id =
        ⟨Except.error ⟨"Trip not found", 404, "TRIP_NOT_FOUND"⟩,
          db, false, [], []⟩) := by
  refine ⟨?_, ?_, ?_⟩
  · intro hnone
    simp [saveTrip, hnone]
  · intro trip t0 hfind hdup
    simp [saveTrip, hfind, hdup]
  · intro hnone
    simp [deleteTrip, hnone]

/-- C8 witness: the three fail-fast cases at concrete inputs. -/
theorem manager_fail_fast_witness :
    saveTrip (Except.ok []) [] none (Except.ok []) none "1" =
      ⟨Except.error ⟨"Trip not found", 404, "TRIP_NOT_FOUND"⟩,
        [], false, [], []⟩ ∧
    saveTrip (Except.ok [sampleTrip]) [sampleTrip] none (Except.ok [])
        none "1" =
      ⟨Except.error
          ⟨"Trip already saved in database", 409, "TRIP_ALREADY_SAVED"⟩,
        [sampleTrip], false, [], []⟩ ∧
    deleteTrip [] none (Except.ok []) none "1" =
      ⟨Except.error ⟨"Trip not found", 404, "TRIP_NOT_FOUND"⟩,
        [], false, [], []⟩ :=
  ⟨(manager_fail_fast [] [] "1" none none none (Except.ok [])).1 rfl,
    (manager_fail_fast [sampleTrip] [sampleTrip] "1" none none none
      (Except.ok [])).2.1 sampleTrip sampleTrip rfl rfl,
    (manager_fail_fast [] [] "1" none none none (Except.ok [])).2.2 rfl⟩

/-- `TripSearchService.getTrips` (`src/src/services/tripSearch.service.ts`):
uppercases both inputs, validates them against the allow-list, fetches via
`searchTripsService.findTrips`, and sorts the result (default `fastest`). -/
def getTrips (cacheGet : String → Option (List Trip))
    (fetchAt : Nat → FetchOutcome) (setErrAt : Nat → Option String)
    (ttl maxRetries : Nat) (origin destination : String)
    (sortBy : Option SortBy) : Except AppError (List Trip) :=
  let o := jsToUpper origin
  let d := jsToUpper destination
  let sortParam := match sortBy with | some s => s | none => SortBy.fastest
  if !(isSupportedAirport o) || !(isSupportedAirport d) then
    Except.error
      ⟨"Unsupported origin or destination", 400, "UNSUPPORTED_AIRPORT"⟩
  else
    match (findTrips cacheGet fetchAt setErrAt o d ttl maxRetries).result with
    | Except.error e => Except.error e
    | Except.ok trips => Except.ok (sortTrips trips sortParam)

/-- `TripManagerService.saveTrip` end-to-end: the service passes `origin`
and `destination` to `searchTripsService.findTrips` exactly as given — no
uppercasing and no allow-list validation happen anywhere in `saveTrip`. -/
def saveTripFull (cacheGet : String → Option (List Trip))
    (fetchAt : Nat → FetchOutcome) (setErrAt : Nat → Option String)
    (ttl maxRetries : Nat) (db : List Trip) (createError : Option String)
    (keysResult : Except String (List String)) (delError : Option String)
    (id origin destination : String) : SaveOutput :=
  saveTrip
    (findTrips cacheGet fetchAt setErrAt origin destination ttl
      maxRetries).result
    db createError keysResult delError id

theorem char_ofNat_toNat_upper (m : Nat) (h1 : 65 ≤ m) (h2 : m ≤ 90) :
    (Char.ofNat m).toNat = m := by
  interval_cases m <;> decide

theorem jsCharToUpper_idem (c : Char) :
    jsCharToUpper (jsCharToUpper c) = jsCharToUpper c := by
  by_cases h : 97 ≤ c.toNat ∧ c.toNat ≤ 122
  · simp only [jsCharToUpper]
    rw [if_pos h,
      char_ofNat_toNat_upper (c.toNat - 32) (by omega) (by omega),
      if_neg (by omega)]
  · simp only [jsCharToUpper, if_neg h]

theorem jsToUpper_idem (s : String) :
    jsToUpper (jsToUpper s) = jsToUpper s := by
  unfold jsToUpper
  refine congrArg String.mk ?_
  simp only [List.map_map]
  exact List.map_congr_left (fun c _ => jsCharToUpper_idem c)

/-- C6 counterexample: the save path applies no input normalization — with
a cache populated only under the uppercased key `trips:ATL:PEK`, saving via
`("ATL", "PEK")` succeeds, while the identical save via `("atl", "PEK")`
consults the different key `trips:atl:PEK`, misses, and fails when the
upstream fetch is down; so saves given `"atl"` do not behave like saves
given `"ATL"`. -/
theorem save_no_normalization_counterexample :
    buildSearchCacheKey "atl" "PEK" ≠ buildSearchCacheKey "ATL" "PEK" ∧
    (saveTripFull
      (fun k => if k = "trips:ATL:PEK" then some [sampleTrip] else none)
      (fun _ => FetchOutcome.netError "down") (fun _ => none) 300 1
      [] none (Except.ok []) none "1" "ATL" "PEK").result =
      Except.ok sampleTrip ∧
    (saveTripFull
      (fun k => if k = "trips:ATL:PEK" then some [sampleTrip] else none)
      (fun _ => FetchOutcome.netError "down") (fun _ => none) 300 1
      [] none (Except.ok []) none "1" "atl" "PEK").result =
      Except.error (retryFailedError 1 "down") := by
  refine ⟨by decide, ?_, ?_⟩ <;> rfl

/-- C6 (amended): uppercasing before validation and cache-key construction
holds on the lookup path — `TripSearchService.getTrips` normalizes first,
so `getTrips` on any inputs equals `getTrips` on their uppercased forms
(same validation outcome, same cache key consulted) — but the save path
(`TripManagerService.saveTrip`) applies no normalization: it hands the
inputs to `findTrips` as given, so its cache key is case-sensitive in the
caller's input. -/
theorem getTrips_normalizes_saveTrip_does_not
    (cacheGet : String → Option (List Trip)) (fetchAt : Nat → FetchOutcome)
    (setErrAt : Nat → Option String) (ttl maxRetries : Nat)
    (origin destination : String) (sortBy : Option SortBy) :
    getTrips cacheGet fetchAt setErrAt ttl maxRetries origin destination
        sortBy =
      getTrips cacheGet fetchAt setErrAt ttl maxRetries (jsToUpper origin)
        (jsToUpper destination) sortBy ∧
    (∀ db createError keysResult delError id,
      saveTripFull cacheGet fetchAt setErrAt ttl maxRetries db createError
          keysResult delError id origin destination =
        saveTrip
          (findTrips cacheGet fetchAt setErrAt origin destination ttl
            maxRetries).result
          db createError keysResult delError id) := by
  constructor
  · simp only [getTrips, jsToUpper_idem]
  · intro db createError keysResult delError id
    rfl

/-- The environment variables read by `src/src/config/env.ts`
(`none` = unset). -/
structure EnvVars where
  TRIPS_API_URL : Option String
  TRIPS_API_KEY : Option String
  DATABASE_URL : Option String
  TRIPS_MAX_RETRY : Option String
  CACHE_TTL_SECONDS : Option String
  PORT : Option String
  REDIS_URL : Option String
  NODE_ENV : Option String
deriving Repr

/-- JavaScript falsiness of `process.env.X` (undefined or empty string),
the condition of the `if (!process.env.X) throw ...` guards. -/
def envFalsy : Option String → Bool
  | none => true
  | some s => s.isEmpty

def digitsVal : List Char → Nat → Option Nat
  | [], acc => some acc
  | c :: cs, acc =>
    if c.isDigit then digitsVal cs (acc * 10 + (c.toNat - 48)) else none

/-- Model of JavaScript `Number()` on the configuration strings: `none`
models `NaN` (in particular `Number(undefined)`); the empty string converts
to `0`; an optional minus sign followed by decimal digits converts to the
signed value; any other string is `NaN`.  (Fractional, hexadecimal and
whitespace-padded forms do not occur in this configuration.) -/
def jsNumber : Option String → Option Int
  | none => none
  | some s =>
    match s.data with
    | [] => some 0
    | '-' :: rest =>
      match rest with
      | [] => none
      | _ => (digitsVal rest 0).map (fun n => -(n : Int))
    | l => (digitsVal l 0).map (fun n => (n : Int))

/-- The `config` object exported by `src/src/config/env.ts`.
`tripsMaxRetry` and `cacheTTL` are `Option Int` with `none` modelling
`NaN`. -/
structure Config where
  port : Option Int
  tripsApiUrl : String
  tripsApiKey : String
  tripsMaxRetry : Option Int
  cacheTTL : Option Int
  redisUrl : Option String
  nodeEnv : String
deriving Repr

/-- Module initialization of `src/src/config/env.ts`: throws when one of
`TRIPS_API_URL`, `TRIPS_API_KEY`, `DATABASE_URL` is unset or empty, then
builds `config`.  `TRIPS_MAX_RETRY` is converted with `Number(...)` and is
not validated in any way. -/
def loadConfig (e : EnvVars) : Except String Config :=
  if envFalsy e.TRIPS_API_URL then
    Except.error "TRIPS_API_URL is required"
  else if envFalsy e.TRIPS_API_KEY then
    Except.error "TRIPS_API_KEY is required"
  else if envFalsy e.DATABASE_URL then
    Except.error "DATABASE_URL is required"
  else
    Except.ok
      ⟨(match e.PORT with
        | none => some 3000
        | some s => jsNumber (some s)),
        e.TRIPS_API_URL.getD "", e.TRIPS_API_KEY.getD "",
        jsNumber e.TRIPS_MAX_RETRY, jsNumber e.CACHE_TTL_SECONDS,
        e.REDIS_URL, e.NODE_ENV.getD "development"⟩

/-- C7 counterexample: a retry configuration of `0` is NOT rejected at
construction — `loadConfig` succeeds with `tripsMaxRetry = 0` — and the
failure surfaces at call time instead: a cache-miss `findTrips` with
`maxRetries = 0` performs no fetch call at all and throws
`UNEXPECTED_ERROR` (500). -/
theorem maxRetry_zero_not_rejected :
    loadConfig ⟨some "http://api.example", some "key",
        some "postgres://db", some "0", some "300", none, none, none⟩ =
      Except.ok ⟨some 3000, "http://api.example", "key", some 0, some 300,
        none, "development"⟩ ∧
    findTrips (fun _ => none) (fun _ => FetchOutcome.ok [sampleTrip])
        (fun _ => none) "ATL" "PEK" 300 0 =
      ⟨Except.error unexpectedError, 0, 0, []⟩ ∧
    unexpectedError =
      ⟨"Unexpected retry failure", 500, "UNEXPECTED_ERROR"⟩ :=
  ⟨rfl, rfl, rfl⟩

/-- C7 (amended): the configuration loader validates only the presence of
`TRIPS_API_URL`, `TRIPS_API_KEY` and `DATABASE_URL`; it applies no
validation to `TRIPS_MAX_RETRY`, so construction succeeds for any retry
string (0, negative, or unparsable alike), and a non-positive (or NaN)
retry bound surfaces only at call time: a cache-miss `findTrips` whose
loop bound is exhausted from the start performs zero fetch calls, waits
not at all, and throws `UNEXPECTED_ERROR` (500). -/
theorem maxRetry_not_validated (e : EnvVars)
    (h1 : envFalsy e.TRIPS_API_URL = false)
    (h2 : envFalsy e.TRIPS_API_KEY = false)
    (h3 : envFalsy e.DATABASE_URL = false) :
    (∃ cfg, loadConfig e = Except.ok cfg ∧
      cfg.tripsMaxRetry = jsNumber e.TRIPS_MAX_RETRY) ∧
    (∀ cacheGet fetchAt setErrAt origin destination ttl,
      cacheGet (buildSearchCacheKey origin destination) = none →
      findTrips cacheGet fetchAt setErrAt origin destination ttl 0 =
        ⟨Except.error unexpectedError, 0, 0, []⟩) := by
  constructor
  · unfold loadConfig
    rw [if_neg (by simp [h1]), if_neg (by simp [h2]),
      if_neg (by simp [h3])]
    exact ⟨_, rfl, rfl⟩
  · intro cacheGet fetchAt setErrAt origin destination ttl hmiss
    rw [findTrips_miss cacheGet fetchAt setErrAt origin destination ttl 0
      hmiss]
    rfl

/-- C7 amended-theorem witness: a concrete environment with
`TRIPS_MAX_RETRY = "-2"` is accepted at construction, and a call-time miss
with an exhausted loop bound yields `UNEXPECTED_ERROR`. -/
theorem maxRetry_not_validated_witness :
    (∃ cfg, loadConfig ⟨some "http://api.example", some "key",
        some "postgres://db", some "-2", none, none, none, none⟩ =
      Except.ok cfg ∧
      cfg.tripsMaxRetry = jsNumber (some "-2")) ∧
    (∀ cacheGet fetchAt setErrAt origin destination ttl,
      cacheGet (buildSearchCacheKey origin destination) = none →
      findTrips cacheGet fetchAt setErrAt origin destination ttl 0 =
        ⟨Except.error unexpectedError, 0, 0, []⟩) :=
  maxRetry_not_validated ⟨some "http://api.example", some "key",
    some "postgres://db", some "-2", none, none, none, none⟩ rfl rfl rfl

end TripPlanner
